import Mathlib

/-!
Verification of the `/get_description` request handler of the gdgbackend
repository (src/main.py, `process_location_data`).

The handler is a linear pipeline: validate the JSON body's coordinates,
reverse-geocode them (falling back to a synthesized default name), build a
prompt, call a generative model, and normalize the model's raw text into a
JSON response.  The two external services are modelled as oracle parameters
(`GeoOutcome`, `ModelOutcome`); the handler additionally records which
external calls it performed (`Call` trace).  Python's `json.loads` is
modelled by an executable recursive-descent JSON reader (`jsonLoads`),
Python `float()` by `pyFloatOf`, and `format(x, ".6f")` by `formatFixed6`
(fallible, since Python raises on a `str` operand).
-/

namespace GdgBackend

/-! Python whitespace stripping (`str.strip`), on character lists. -/

def isPySpace (c : Char) : Bool :=
  c == ' ' || c == '\t' || c == '\n' || c == '\r' || c == '\x0b' || c == '\x0c'

/-- Model of Python `str.strip()` restricted to the ASCII whitespace set. -/
def pyStrip (l : List Char) : List Char :=
  List.rdropWhile isPySpace (l.dropWhile isPySpace)

/-! Markdown code-fence cleanup of the model output (src/main.py lines 195-200). -/

def fenceOpen : List Char := ['`', '`', '`', 'j', 's', 'o', 'n']

def fenceClose : List Char := ['`', '`', '`']

/-- Model of Python `cleaned[:-3]`: drop the last three characters. -/
def dropLast3 (l : List Char) : List Char :=
  (l.reverse.drop 3).reverse

/-- The cleanup step of the response normalizer: strip whitespace, remove a
leading three-backtick-json fence if present, remove a trailing
three-backtick fence if present, strip whitespace again. -/
def cleanFences (l : List Char) : List Char :=
  let l1 := pyStrip l
  let l2 := if fenceOpen.isPrefixOf l1 then l1.drop 7 else l1
  let l3 := if fenceClose.isSuffixOf l2 then dropLast3 l2 else l2
  pyStrip l3

/-! JSON values and a model of Python `json.loads`. -/

/-- Parsed JSON values.  Numbers keep their source lexeme: no claim depends
on numeric JSON values, and two parses of the same text stay equal. -/
inductive JValue where
  | null : JValue
  | bool (b : Bool) : JValue
  | num (lexeme : String) : JValue
  | str (s : String) : JValue
  | arr (elems : List JValue) : JValue
  | obj (members : List (String × JValue)) : JValue

def hasKey (kvs : List (String × JValue)) (k : String) : Bool :=
  kvs.any (fun kv => kv.1 == k)

/-- The shape check at src/main.py line 206: parsed data must be a dict
containing both the summary and the details keys. -/
def shapeOk (v : JValue) : Bool :=
  match v with
  | .obj kvs => hasKey kvs "summary" && hasKey kvs "details"
  | _ => false

def jsonWsChar (c : Char) : Bool :=
  c == ' ' || c == '\t' || c == '\n' || c == '\r'

def skipWs (l : List Char) : List Char := l.dropWhile jsonWsChar

/-- Value of one hexadecimal digit, via code points: 48-57 are the digits,
97-102 lower-case a-f, 65-70 upper-case A-F. -/
def hexVal (c : Char) : Option Nat :=
  let n := c.toNat
  if decide (48 ≤ n) && decide (n ≤ 57) then some (n - 48)
  else if decide (97 ≤ n) && decide (n ≤ 102) then some (n - 87)
  else if decide (65 ≤ n) && decide (n ≤ 70) then some (n - 55)
  else none

/-- The two-character JSON string escapes other than the hex escape. -/
def escChar (c : Char) : Option Char :=
  match c with
  | '"' => some '"'
  | '\\' => some '\\'
  | '/' => some '/'
  | 'b' => some (Char.ofNat 8)
  | 'f' => some (Char.ofNat 12)
  | 'n' => some '\n'
  | 'r' => some '\r'
  | 't' => some '\t'
  | _ => none

def parseHex4 (l : List Char) : Option (Nat × List Char) :=
  match l with
  | a :: b :: c :: d :: rest =>
    match hexVal a, hexVal b, hexVal c, hexVal d with
    | some x, some y, some z, some w => some ((((x * 16 + y) * 16 + z) * 16 + w), rest)
    | _, _, _, _ => none
  | _ => none

/-- Read a JSON string body after the opening quote, handling escapes;
strict mode rejects raw control characters, as `json.loads` does. -/
def readStringRest (fuel : Nat) (l : List Char) (acc : List Char) :
    Option (String × List Char) :=
  match fuel with
  | 0 => none
  | f + 1 =>
    match l with
    | [] => none
    | c :: rest =>
      if c == '"' then some (String.mk acc.reverse, rest)
      else if c == '\\' then
        match rest with
        | [] => none
        | 'u' :: r2 =>
          match parseHex4 r2 with
          | some (n, r3) => readStringRest f r3 (Char.ofNat n :: acc)
          | none => none
        | e :: r2 =>
          match escChar e with
          | some ch => readStringRest f r2 (ch :: acc)
          | none => none
      else if c.toNat < 32 then none
      else readStringRest f rest (c :: acc)

def spanDigits (l : List Char) : List Char × List Char := l.span Char.isDigit

/-- Lex a JSON number token (RFC 8259 grammar): optional minus, integer part
with no leading zeros, optional fraction, optional exponent. -/
def readNumLexeme (l : List Char) : Option (List Char × List Char) :=
  let (sgn, l1) :=
    match l with
    | '-' :: r => (['-'], r)
    | _ => (([] : List Char), l)
  match l1 with
  | [] => none
  | c :: cs =>
    if c.isDigit then
      let (ip, r1) := if c == '0' then ([c], cs) else spanDigits l1
      let (fp, r2) :=
        match r1 with
        | '.' :: d :: ds =>
          if d.isDigit then
            let (xs, r) := spanDigits (d :: ds)
            ('.' :: xs, r)
          else (([] : List Char), r1)
        | _ => (([] : List Char), r1)
      let (ep, r3) :=
        match r2 with
        | e :: es =>
          if e == 'e' || e == 'E' then
            match es with
            | s :: ss =>
              if s == '+' || s == '-' then
                match ss with
                | d :: _ =>
                  if d.isDigit then
                    let (xs, r) := spanDigits ss
                    (e :: s :: xs, r)
                  else (([] : List Char), r2)
                | [] => (([] : List Char), r2)
              else if s.isDigit then
                let (xs, r) := spanDigits es
                (e :: xs, r)
              else (([] : List Char), r2)
            | [] => (([] : List Char), r2)
          else (([] : List Char), r2)
        | [] => (([] : List Char), r2)
      some (sgn ++ ip ++ fp ++ ep, r3)
    else none

mutual

/-- Fuel-based recursive-descent reader for a JSON value, modelling
`json.loads` (which also accepts the literals NaN, Infinity, -Infinity). -/
def parseValue (fuel : Nat) (l : List Char) : Option (JValue × List Char) :=
  match fuel with
  | 0 => none
  | f + 1 =>
    let l1 := skipWs l
    match l1 with
    | [] => none
    | c :: rest =>
      if c == '\x7b' then parseObjBody f (skipWs rest)
      else if c == '[' then parseArrBody f (skipWs rest)
      else if c == '"' then
        match readStringRest (rest.length + 1) rest [] with
        | some (s, r) => some (.str s, r)
        | none => none
      else if List.isPrefixOf "true".data l1 then some (.bool true, l1.drop 4)
      else if List.isPrefixOf "false".data l1 then some (.bool false, l1.drop 5)
      else if List.isPrefixOf "null".data l1 then some (.null, l1.drop 4)
      else if List.isPrefixOf "NaN".data l1 then some (.num "NaN", l1.drop 3)
      else if List.isPrefixOf "Infinity".data l1 then some (.num "Infinity", l1.drop 8)
      else if List.isPrefixOf "-Infinity".data l1 then some (.num "-Infinity", l1.drop 9)
      else
        match readNumLexeme l1 with
        | some (lx, r) => some (.num (String.mk lx), r)
        | none => none

/-- Object body after the opening brace and whitespace. -/
def parseObjBody (fuel : Nat) (l : List Char) : Option (JValue × List Char) :=
  match fuel with
  | 0 => none
  | f + 1 =>
    match l with
    | '\x7d' :: rest => some (.obj [], rest)
    | _ => parseMembers f l []

/-- Object members: key string, colon, value, then comma or closing brace. -/
def parseMembers (fuel : Nat) (l : List Char) (acc : List (String × JValue)) :
    Option (JValue × List Char) :=
  match fuel with
  | 0 => none
  | f + 1 =>
    match l with
    | '"' :: rest =>
      match readStringRest (rest.length + 1) rest [] with
      | some (k, r1) =>
        match skipWs r1 with
        | ':' :: r2 =>
          match parseValue f r2 with
          | some (v, r3) =>
            match skipWs r3 with
            | ',' :: r4 => parseMembers f (skipWs r4) ((k, v) :: acc)
            | '\x7d' :: r4 => some (.obj (((k, v) :: acc).reverse), r4)
            | _ => none
          | none => none
        | _ => none
      | none => none
    | _ => none

/-- Array body after the opening bracket and whitespace. -/
def parseArrBody (fuel : Nat) (l : List Char) : Option (JValue × List Char) :=
  match fuel with
  | 0 => none
  | f + 1 =>
    match l with
    | ']' :: rest => some (.arr [], rest)
    | _ => parseElems f l []

/-- Array elements: value, then comma or closing bracket. -/
def parseElems (fuel : Nat) (l : List Char) (acc : List JValue) :
    Option (JValue × List Char) :=
  match fuel with
  | 0 => none
  | f + 1 =>
    match parseValue f l with
    | some (v, r1) =>
      match skipWs r1 with
      | ',' :: r2 => parseElems f r2 (v :: acc)
      | ']' :: r2 => some (.arr ((v :: acc).reverse), r2)
      | _ => none
    | none => none

end

/-- Model of `json.loads`: parse one value, then require only whitespace to
follow; the error string models `str(json_error)`. -/
def jsonLoads (l : List Char) : Except String JValue :=
  match parseValue (2 * l.length + 2) l with
  | none => .error "Expecting value"
  | some (v, rest) =>
    if skipWs rest = [] then .ok v else .error "Extra data"

/-! Python request values: the JSON-decoded body fields, Python `float()`,
and Python fixed-point formatting. -/

/-- Python float values: rationals model finite doubles exactly; the model
keeps track of the infinities and NaN that `float()` can produce. -/
inductive PyFloat where
  | finite (q : ℚ) : PyFloat
  | inf : PyFloat
  | negInf : PyFloat
  | nan : PyFloat

/-- A Python value decoded from the JSON request body.  Nested containers
carry no payload: the handler only ever passes them to `float()`, which
raises TypeError on both. -/
inductive PyValue where
  | null : PyValue
  | bool (b : Bool) : PyValue
  | num (x : PyFloat) : PyValue
  | str (s : String) : PyValue
  | list : PyValue
  | dict : PyValue

def digitsToNat (l : List Char) : Nat :=
  l.foldl (fun a c => a * 10 + (c.toNat - '0'.toNat)) 0

/-- Decimal part of Python `float(str)`: digits, optional point and digits,
optional exponent; at least one mantissa digit.  Built with `mkRat` over
integers so that the kernel can evaluate it. -/
def readDecimal (l : List Char) : Option ℚ :=
  let (ip, r1) := spanDigits l
  let (fp, r2) :=
    match r1 with
    | '.' :: rest => spanDigits rest
    | _ => (([] : List Char), r1)
  if ip.isEmpty && fp.isEmpty then none
  else
    let mantNum : Nat := digitsToNat ip * 10 ^ fp.length + digitsToNat fp
    let mantDen : Nat := 10 ^ fp.length
    match r2 with
    | [] => some (mkRat (Int.ofNat mantNum) mantDen)
    | e :: rest =>
      if e == 'e' || e == 'E' then
        let (esgn, r3) :=
          match rest with
          | '+' :: r => (false, r)
          | '-' :: r => (true, r)
          | _ => (false, rest)
        let (ed, r4) := spanDigits r3
        if ed.isEmpty || !r4.isEmpty then none
        else if esgn then some (mkRat (Int.ofNat mantNum) (mantDen * 10 ^ digitsToNat ed))
        else some (mkRat (Int.ofNat (mantNum * 10 ^ digitsToNat ed)) mantDen)
      else none

/-- Model of Python `float(s)` for strings: strip whitespace, optional sign,
then a decimal literal or the case-insensitive words inf, infinity, nan. -/
def pyFloatOfString (s : String) : Option PyFloat :=
  let l := pyStrip s.data
  let (neg, l2) :=
    match l with
    | '+' :: r => (false, r)
    | '-' :: r => (true, r)
    | _ => (false, l)
  let low := l2.map Char.toLower
  if low = "inf".data || low = "infinity".data then
    some (if neg then .negInf else .inf)
  else if low = "nan".data then some .nan
  else
    match readDecimal l2 with
    | some q => some (.finite (if neg then Rat.neg q else q))
    | none => none

/-- Model of Python `float(x)` on a decoded JSON value: numbers pass
through, booleans coerce, strings are parsed, everything else raises. -/
def pyFloatOf (v : PyValue) : Option PyFloat :=
  match v with
  | .num x => some x
  | .bool b => some (.finite (if b then 1 else 0))
  | .str s => pyFloatOfString s
  | _ => none

/-- Python chained comparison `lo <= x <= hi` on a float: false whenever
`x` is NaN or an infinity outside the bounds. -/
def floatInRange (x : PyFloat) (lo hi : ℚ) : Bool :=
  match x with
  | .finite q => decide (lo ≤ q) && decide (q ≤ hi)
  | _ => false

/-- Round the fraction `n / d` (with `d` positive) to the nearest integer,
ties to even, as float formatting does; integer arithmetic throughout so
that the kernel can evaluate it. -/
def roundHalfEvenInt (n d : Int) : Int :=
  let f := Int.fdiv n d
  let r := n - f * d
  if 2 * r < d then f
  else if d < 2 * r then f + 1
  else if Int.emod f 2 = 0 then f else f + 1

def padZeros (n : Nat) (s : String) : String :=
  String.mk (List.replicate (n - s.length) '0') ++ s

/-- Fixed-point rendering of a finite float with six decimals, keeping the
minus sign of a negative value that rounds to zero, as Python does. -/
def fixed6 (q : ℚ) : String :=
  let n := roundHalfEvenInt (q.num * 1000000) (Int.ofNat q.den)
  let sign := if q.num < 0 then "-" else ""
  let m := n.natAbs
  sign ++ toString (m / 1000000) ++ "." ++ padZeros 6 (toString (m % 1000000))

/-- Model of the Python f-string conversion `x:.6f`.  It succeeds on
numbers and booleans but raises (returns none) on strings and on every
other object, exactly as `format` does. -/
def formatFixed6 (v : PyValue) : Option String :=
  match v with
  | .num (.finite q) => some (fixed6 q)
  | .num .inf => some "inf"
  | .num .negInf => some "-inf"
  | .num .nan => some "nan"
  | .bool b => some (if b then "1.000000" else "0.000000")
  | _ => none

/-- Model of Python `str(x)` as used inside the prompt f-string; total, as
`str` never raises.  Digit-level fidelity of float rendering is immaterial:
the prompt is only handed to the model oracle. -/
def pyStr (v : PyValue) : String :=
  match v with
  | .null => "None"
  | .bool true => "True"
  | .bool false => "False"
  | .num (.finite q) => toString q.num ++ (if q.den = 1 then "" else "/" ++ toString q.den)
  | .num .inf => "inf"
  | .num .negInf => "-inf"
  | .num .nan => "nan"
  | .str s => s
  | .list => "[]"
  | .dict => "\x7b\x7d"

/-! The handler: oracle inputs, responses, and the pipeline itself. -/

/-- External calls the handler can make, in order. -/
inductive Call where
  | geocode : Call
  | modelCall : Call
deriving DecidableEq

/-- Outcome of `request.get_json()` plus the falsiness test on the result:
the body either fails to parse (400), is falsy (400), is a truthy non-dict
(`.get` raises AttributeError), or is a dict of fields. -/
inductive BodyOutcome where
  | invalidJson (e : String) : BodyOutcome
  | falsy : BodyOutcome
  | truthyNonDict : BodyOutcome
  | fields (kvs : List (String × PyValue)) : BodyOutcome

/-- Oracle for `gmaps_client.reverse_geocode`: a result list (each result a
dict of string fields), an ApiError, or any other exception. -/
inductive GeoOutcome where
  | results (rs : List (List (String × String))) : GeoOutcome
  | apiError : GeoOutcome
  | geoError : GeoOutcome

/-- Oracle for the generative-model call: raw text was obtained, accessing
`.text` raised ValueError (blocked content, with its detail string),
`.text` was missing entirely (AttributeError), or the call itself (or any
later processing outside the inner handlers) raised. -/
inductive ModelOutcome where
  | ok (text : String) : ModelOutcome
  | blocked (detail : String) : ModelOutcome
  | noTextAttr : ModelOutcome
  | otherFailure : ModelOutcome

/-- A finished HTTP response (status plus JSON body), or an exception that
escaped the handler to the web framework. -/
inductive HandlerResult where
  | response (status : Nat) (body : JValue) : HandlerResult
  | unhandled : HandlerResult

def errBody (msg : String) : JValue := .obj [("error", .str msg)]

def resp503Gemini : HandlerResult :=
  .response 503 (errBody "Backend configuration error: AI model not available")

def resp503Maps : HandlerResult :=
  .response 503 (errBody "Backend configuration error: Maps client not available")

def respMissingCoords : HandlerResult :=
  .response 400 (errBody "Required fields 'latitude' and 'longitude' are missing")

def respInvalidCoords : HandlerResult :=
  .response 400 (errBody "Invalid latitude or longitude values provided.")

/-- Model of `body.get(k)`: a missing key and an explicit JSON null both
come back as Python None. -/
def pyGet (kvs : List (String × PyValue)) (k : String) : Option PyValue :=
  match List.lookup k kvs with
  | some PyValue.null => none
  | some v => some v
  | none => none

/-- Coordinate validation, src/main.py lines 99-111: both fields present
and non-null, both convertible by `float()`, both within geographic range;
otherwise the matching 400 response. -/
def validateBody (kvs : List (String × PyValue)) :
    Except HandlerResult (PyValue × PyValue) :=
  match pyGet kvs "latitude", pyGet kvs "longitude" with
  | some la, some lo =>
    match pyFloatOf la, pyFloatOf lo with
    | some lf, some gf =>
      if floatInRange lf (-90) 90 && floatInRange gf (-180) 180 then .ok (la, lo)
      else .error respInvalidCoords
    | _, _ => .error respInvalidCoords
  | _, _ => .error respMissingCoords

def defaultNameOf (sla slo : String) : String :=
  "Coordinates " ++ sla ++ ", " ++ slo

/-- Location resolution, src/main.py lines 116-138: first result's
formatted address when present, otherwise the default name; on an API
error or any other exception, the default name with a marker suffix. -/
def resolveLocationName (geo : GeoOutcome) (deflt : String) : String :=
  match geo with
  | .results [] => deflt
  | .results (r :: _) =>
    match List.lookup "formatted_address" r with
    | some a => a
    | none => deflt
  | .apiError => deflt ++ " (Maps API Error)"
  | .geoError => deflt ++ " (Geocoding Error)"

/-- The prompt template of src/main.py lines 143-154. -/
def buildPrompt (locationName : String) (la lo : PyValue) : String :=
  "You are a historical geography expert providing information for an Augmented Reality application. " ++
  "The user is looking at a location identified as '" ++ locationName ++ "' " ++
  "(precise coordinates: latitude=" ++ pyStr la ++ ", longitude=" ++ pyStr lo ++ "). " ++
  "Provide interesting historical information and a concise summary about this specific location " ++
  "or the most relevant nearby historical point of interest. " ++
  "Keep the language engaging and suitable for a brief AR overlay. " ++
  "Respond ONLY with a single, valid JSON object containing exactly two keys: " ++
  "\"summary\" (string: a very brief, 1-2 sentence summary for immediate display) and " ++
  "\"details\" (string or list of strings: 2-4 slightly more detailed historical facts or points, suitable for expansion or secondary display). " ++
  "Strictly adhere to this JSON format: \x7b\"summary\": \"Example summary.\", \"details\": [\"Detail 1.\", \"Detail 2.\"]\x7d"

def parseWarning : String := "AI response could not be parsed as valid JSON."

def missingKeysMsg : String := "Missing required keys in AI JSON response"

/-- The diagnostic payload returned when the model's output cannot be used
as structured JSON (src/main.py lines 219-224). -/
def diagBody (raw errDetail loc : String) : JValue :=
  .obj [("raw_response", .str raw),
        ("warning", .str parseWarning),
        ("error_details", .str errDetail),
        ("determined_location", .str loc)]

/-- The response normalizer, src/main.py lines 193-224: clean fences, parse
as JSON, check the two required keys; on success return the parsed object
with 200, otherwise a 200 with the diagnostic payload. -/
def normalizeModelText (responseText : String) (locName : String) : HandlerResult :=
  match jsonLoads (cleanFences responseText.data) with
  | .ok data =>
    if shapeOk data then .response 200 data
    else .response 200 (diagBody responseText missingKeysMsg locName)
  | .error e => .response 200 (diagBody responseText e locName)

/-- Dispatch on the model-call oracle, src/main.py lines 158-229: blocked
content gives 400 with the exception detail, a missing text attribute
gives 502, any other exception gives 500, and obtained text goes to the
normalizer.  The prompt is consumed by the external call only. -/
def modelStage (m : ModelOutcome) (_prompt : String) (locName : String) : HandlerResult :=
  match m with
  | .ok t => normalizeModelText t locName
  | .blocked d =>
    .response 400 (.obj [("error", .str "AI response blocked due to safety settings or other issue."),
                         ("details", .str d)])
  | .noTextAttr => .response 502 (errBody "Unexpected AI response format from Google")
  | .otherFailure =>
    .response 500 (errBody "An internal server error occurred processing the AI request")

/-- The pipeline after validation, src/main.py lines 114-229.  The default
name is formatted first (line 115); a formatting exception escapes before
either external call.  Otherwise the geocoder and then the model are
called. -/
def afterValidation (la lo : PyValue) (geo : GeoOutcome) (m : ModelOutcome) :
    HandlerResult × List Call :=
  match formatFixed6 la, formatFixed6 lo with
  | some sla, some slo =>
    let locName := resolveLocationName geo (defaultNameOf sla slo)
    (modelStage m (buildPrompt locName la lo) locName, [Call.geocode, Call.modelCall])
  | _, _ => (.unhandled, [])

/-- The whole request handler `process_location_data`, src/main.py lines
61-229, over the two readiness flags, the parsed body, and the two
external-service oracles; paired with the list of external calls made. -/
def process_location_data (geminiReady gmapsReady : Bool) (body : BodyOutcome)
    (geo : GeoOutcome) (m : ModelOutcome) : HandlerResult × List Call :=
  if geminiReady then
    if gmapsReady then
      match body with
      | .invalidJson e =>
        (.response 400 (errBody ("Invalid JSON format in request body: " ++ e)), [])
      | .falsy => (.response 400 (errBody "Request must contain a valid JSON body"), [])
      | .truthyNonDict => (.unhandled, [])
      | .fields kvs =>
        match validateBody kvs with
        | .error r => (r, [])
        | .ok (la, lo) => afterValidation la lo geo m
    else (resp503Maps, [])
  else (resp503Gemini, [])

/-! Helper lemmas shared by several claims. -/

/-- Once a request is validated and both coordinates admit fixed-point
formatting, the handler's result is exactly the model stage applied to the
resolved location name, with both external calls made. -/
theorem reach_model (kvs : List (String × PyValue)) (la lo : PyValue)
    (sla slo : String) (geo : GeoOutcome) (m : ModelOutcome)
    (hv : validateBody kvs = .ok (la, lo))
    (hla : formatFixed6 la = some sla) (hlo : formatFixed6 lo = some slo) :
    process_location_data true true (.fields kvs) geo m
      = (modelStage m (buildPrompt (resolveLocationName geo (defaultNameOf sla slo)) la lo)
          (resolveLocationName geo (defaultNameOf sla slo)),
         [Call.geocode, Call.modelCall]) := by
  have h1 : process_location_data true true (.fields kvs) geo m
      = afterValidation la lo geo m := by
    show (match validateBody kvs with
          | Except.error r => (r, ([] : List Call))
          | Except.ok (la, lo) => afterValidation la lo geo m)
        = afterValidation la lo geo m
    rw [hv]
  rw [h1]
  unfold afterValidation
  rw [hla, hlo]

/-- Every failure of `validateBody` is one of the two 400 responses. -/
theorem validateBody_error_cases (kvs : List (String × PyValue)) (r : HandlerResult)
    (hv : validateBody kvs = .error r) :
    r = respMissingCoords ∨ r = respInvalidCoords := by
  unfold validateBody at hv
  split at hv
  · split at hv
    · split at hv
      · simp at hv
      · injection hv with h
        exact Or.inr h.symm
    · injection hv with h
      exact Or.inr h.symm
  · injection hv with h
    exact Or.inl h.symm

/-! Claim C1. -/

def c1Text : String := "\x7b\"summary\": \"S\", \"details\": [\"D1\"]\x7d"

def c1Body : JValue := .obj [("summary", .str "S"), ("details", .arr [.str "D1"])]

/-- Claim C1: for every request that passes validation (and whose default
name formats, so the model call is actually reached and has a raw output),
if the model's raw output text is exactly the JSON object text with both
required keys, the handler responds 200 with the parsed object as body. -/
theorem c1_valid_model_json_gives_200_parsed (kvs : List (String × PyValue))
    (la lo : PyValue) (sla slo : String) (geo : GeoOutcome)
    (hv : validateBody kvs = .ok (la, lo))
    (hla : formatFixed6 la = some sla) (hlo : formatFixed6 lo = some slo) :
    process_location_data true true (.fields kvs) geo (.ok c1Text)
      = (.response 200 c1Body, [Call.geocode, Call.modelCall]) := by
  rw [reach_model kvs la lo sla slo geo (.ok c1Text) hv hla hlo]
  rfl

def w1Kvs : List (String × PyValue) :=
  [("latitude", .num (.finite 1)), ("longitude", .num (.finite 2))]

/-- Witness for C1 at a concrete validated request. -/
theorem c1_valid_model_json_gives_200_parsed_witness :
    validateBody w1Kvs = .ok (.num (.finite 1), .num (.finite 2))
    ∧ formatFixed6 (PyValue.num (.finite 1)) = some "1.000000"
    ∧ formatFixed6 (PyValue.num (.finite 2)) = some "2.000000"
    ∧ process_location_data true true (.fields w1Kvs) (.results []) (.ok c1Text)
        = (.response 200 c1Body, [Call.geocode, Call.modelCall]) :=
  ⟨rfl, rfl, rfl,
    c1_valid_model_json_gives_200_parsed w1Kvs _ _ "1.000000" "2.000000"
      (.results []) rfl rfl rfl⟩

/-! Claim C2. -/

/-- Claim C2: when the model's raw output does not parse as JSON after
fence stripping, the handler still answers 200, with a body carrying the
original un-stripped text as raw response, the fixed non-empty warning,
the parse-error detail, and the resolved location name. -/
theorem c2_unparseable_model_text_degraded_200 (kvs : List (String × PyValue))
    (la lo : PyValue) (sla slo : String) (geo : GeoOutcome) (t e : String)
    (hv : validateBody kvs = .ok (la, lo))
    (hla : formatFixed6 la = some sla) (hlo : formatFixed6 lo = some slo)
    (hp : jsonLoads (cleanFences t.data) = .error e) :
    process_location_data true true (.fields kvs) geo (.ok t)
      = (.response 200 (diagBody t e (resolveLocationName geo (defaultNameOf sla slo))),
         [Call.geocode, Call.modelCall])
    ∧ parseWarning ≠ "" := by
  refine ⟨?_, by decide⟩
  rw [reach_model kvs la lo sla slo geo (.ok t) hv hla hlo]
  show (normalizeModelText t _, _) = _
  simp [normalizeModelText, hp]

/-- Witness for C2 on a model output that is plain prose. -/
theorem c2_unparseable_model_text_degraded_200_witness :
    validateBody w1Kvs = .ok (.num (.finite 1), .num (.finite 2))
    ∧ jsonLoads (cleanFences "I cannot answer.".data) = .error "Expecting value"
    ∧ (process_location_data true true (.fields w1Kvs) (.results [])
          (.ok "I cannot answer.")
        = (.response 200 (diagBody "I cannot answer." "Expecting value"
            (resolveLocationName (.results []) (defaultNameOf "1.000000" "2.000000"))),
           [Call.geocode, Call.modelCall])
      ∧ parseWarning ≠ "") :=
  ⟨rfl, rfl,
    c2_unparseable_model_text_degraded_200 w1Kvs _ _ "1.000000" "2.000000"
      (.results []) "I cannot answer." "Expecting value" rfl rfl rfl rfl⟩

/-! Claim C3. -/

/-- Claim C3: model output that parses as JSON but is not an object with
both required keys is treated exactly like unparseable output: the same
200 diagnostic payload (raw text, fixed warning, error detail, resolved
location name), never the success body. -/
theorem c3_missing_keys_treated_as_parse_failure (kvs : List (String × PyValue))
    (la lo : PyValue) (sla slo : String) (geo : GeoOutcome) (t : String) (v : JValue)
    (hv : validateBody kvs = .ok (la, lo))
    (hla : formatFixed6 la = some sla) (hlo : formatFixed6 lo = some slo)
    (hp : jsonLoads (cleanFences t.data) = .ok v)
    (hs : shapeOk v = false) :
    process_location_data true true (.fields kvs) geo (.ok t)
      = (.response 200 (diagBody t missingKeysMsg
          (resolveLocationName geo (defaultNameOf sla slo))),
         [Call.geocode, Call.modelCall]) := by
  rw [reach_model kvs la lo sla slo geo (.ok t) hv hla hlo]
  show (normalizeModelText t _, _) = _
  simp [normalizeModelText, hp, hs]

/-- Witness for C3 on a JSON object missing the details key. -/
theorem c3_missing_keys_treated_as_parse_failure_witness :
    validateBody w1Kvs = .ok (.num (.finite 1), .num (.finite 2))
    ∧ jsonLoads (cleanFences "\x7b\"summary\": \"S\"\x7d".data)
        = .ok (.obj [("summary", .str "S")])
    ∧ shapeOk (.obj [("summary", .str "S")]) = false
    ∧ process_location_data true true (.fields w1Kvs) (.results [])
          (.ok "\x7b\"summary\": \"S\"\x7d")
        = (.response 200 (diagBody "\x7b\"summary\": \"S\"\x7d" missingKeysMsg
            (resolveLocationName (.results []) (defaultNameOf "1.000000" "2.000000"))),
           [Call.geocode, Call.modelCall]) :=
  ⟨rfl, rfl, rfl,
    c3_missing_keys_treated_as_parse_failure w1Kvs _ _ "1.000000" "2.000000"
      (.results []) "\x7b\"summary\": \"S\"\x7d" (.obj [("summary", .str "S")])
      rfl rfl rfl rfl rfl⟩

/-! Claim C5. -/

/-- Claim C5: a request missing a coordinate, with a coordinate that
`float()` rejects, or with a value outside the geographic range, gets a
400 response and neither external service is called. -/
theorem c5_invalid_request_400_no_calls (kvs : List (String × PyValue))
    (geo : GeoOutcome) (m : ModelOutcome) (r : HandlerResult)
    (hv : validateBody kvs = .error r) :
    process_location_data true true (.fields kvs) geo m = (r, [])
    ∧ ∃ b, r = HandlerResult.response 400 b := by
  constructor
  · show (match validateBody kvs with
          | Except.error r => (r, ([] : List Call))
          | Except.ok (la, lo) => afterValidation la lo geo m)
        = (r, [])
    rw [hv]
  · rcases validateBody_error_cases kvs r hv with h | h <;> subst h
    · exact ⟨_, rfl⟩
    · exact ⟨_, rfl⟩

/-- Witness for C5 with an out-of-range latitude. -/
theorem c5_invalid_request_400_no_calls_witness :
    validateBody [("latitude", PyValue.num (.finite 200)), ("longitude", PyValue.num (.finite 0))]
        = .error respInvalidCoords
    ∧ (process_location_data true true
          (.fields [("latitude", PyValue.num (.finite 200)), ("longitude", PyValue.num (.finite 0))])
          (.results []) (.ok "x")
        = (respInvalidCoords, [])
      ∧ ∃ b, respInvalidCoords = HandlerResult.response 400 b) :=
  ⟨rfl,
    c5_invalid_request_400_no_calls
      [("latitude", PyValue.num (.finite 200)), ("longitude", PyValue.num (.finite 0))]
      (.results []) (.ok "x") respInvalidCoords rfl⟩

/-! Claim C7. -/

/-- Claim C7: the three failure modes of the model call map to three
distinct statuses: blocked content gives a 400 response carrying the
exception's detail string, a response object with no text field gives 502,
and any other exception gives 500. -/
theorem c7_model_failure_status_mapping (kvs : List (String × PyValue))
    (la lo : PyValue) (sla slo : String) (geo : GeoOutcome) (d : String)
    (hv : validateBody kvs = .ok (la, lo))
    (hla : formatFixed6 la = some sla) (hlo : formatFixed6 lo = some slo) :
    process_location_data true true (.fields kvs) geo (.blocked d)
        = (.response 400 (.obj
            [("error", .str "AI response blocked due to safety settings or other issue."),
             ("details", .str d)]),
           [Call.geocode, Call.modelCall])
    ∧ process_location_data true true (.fields kvs) geo .noTextAttr
        = (.response 502 (errBody "Unexpected AI response format from Google"),
           [Call.geocode, Call.modelCall])
    ∧ process_location_data true true (.fields kvs) geo .otherFailure
        = (.response 500 (errBody "An internal server error occurred processing the AI request"),
           [Call.geocode, Call.modelCall]) := by
  refine ⟨?_, ?_, ?_⟩
  · rw [reach_model kvs la lo sla slo geo (.blocked d) hv hla hlo]
    rfl
  · rw [reach_model kvs la lo sla slo geo .noTextAttr hv hla hlo]
    rfl
  · rw [reach_model kvs la lo sla slo geo .otherFailure hv hla hlo]
    rfl

/-- Witness for C7 at a concrete validated request. -/
theorem c7_model_failure_status_mapping_witness :
    validateBody w1Kvs = .ok (.num (.finite 1), .num (.finite 2))
    ∧ (process_location_data true true (.fields w1Kvs) (.results []) (.blocked "blocked detail")
          = (.response 400 (.obj
              [("error", .str "AI response blocked due to safety settings or other issue."),
               ("details", .str "blocked detail")]),
             [Call.geocode, Call.modelCall])
      ∧ process_location_data true true (.fields w1Kvs) (.results []) .noTextAttr
          = (.response 502 (errBody "Unexpected AI response format from Google"),
             [Call.geocode, Call.modelCall])
      ∧ process_location_data true true (.fields w1Kvs) (.results []) .otherFailure
          = (.response 500 (errBody "An internal server error occurred processing the AI request"),
             [Call.geocode, Call.modelCall])) :=
  ⟨rfl,
    c7_model_failure_status_mapping w1Kvs _ _ "1.000000" "2.000000"
      (.results []) "blocked detail" rfl rfl rfl⟩

/-! Claim C10. -/

/-- Claim C10: when the geocoder returns a non-empty result list whose
first result has no formatted-address field, the resolver does not fail
and ignores every other field of the result, yielding the same synthesized
default name as an empty result list. -/
theorem c10_missing_formatted_address_falls_back (r : List (String × String))
    (rest : List (List (String × String))) (d : String)
    (h : List.lookup "formatted_address" r = none) :
    resolveLocationName (.results (r :: rest)) d = d
    ∧ resolveLocationName (.results (r :: rest)) d
        = resolveLocationName (.results []) d := by
  constructor
  · show (match List.lookup "formatted_address" r with
          | some a => a
          | none => d) = d
    rw [h]
  · show (match List.lookup "formatted_address" r with
          | some a => a
          | none => d) = resolveLocationName (.results []) d
    rw [h]
    rfl

/-- Witness for C10 on a result carrying only an unrelated field. -/
theorem c10_missing_formatted_address_falls_back_witness :
    List.lookup "formatted_address" [("place_id", "abc")] = none
    ∧ (resolveLocationName (.results [[("place_id", "abc")]]) "Coordinates 1.000000, 2.000000"
          = "Coordinates 1.000000, 2.000000"
      ∧ resolveLocationName (.results [[("place_id", "abc")]]) "Coordinates 1.000000, 2.000000"
          = resolveLocationName (.results []) "Coordinates 1.000000, 2.000000") :=
  ⟨rfl,
    c10_missing_formatted_address_falls_back [("place_id", "abc")] []
      "Coordinates 1.000000, 2.000000" rfl⟩

/-! Claims C4 and C6.  Both quantify over every request that passes
validation, but validation also accepts numeric strings (Python `float`
parses them), and the later f-string `x:.6f` raises on a string operand
before any external call; the claims hold once the coordinates are
restricted to numeric (or boolean) values. -/

/-- A coordinate value on which Python fixed-point formatting succeeds:
ints, floats and bools; validation also lets numeric strings through, but
those make the format step raise. -/
def isNumericValue (v : PyValue) : Bool :=
  match v with
  | .num _ => true
  | .bool _ => true
  | _ => false

/-- Fixed-point formatting succeeds on every numeric or boolean value. -/
theorem formatFixed6_total_on_numeric (v : PyValue) (h : isNumericValue v = true) :
    ∃ s, formatFixed6 v = some s := by
  cases v with
  | num x => cases x <;> exact ⟨_, rfl⟩
  | bool b => exact ⟨_, rfl⟩
  | null => simp [isNumericValue] at h
  | str s => simp [isNumericValue] at h
  | list => simp [isNumericValue] at h
  | dict => simp [isNumericValue] at h

/-- The model stage always produces a finished HTTP response. -/
theorem modelStage_ne_unhandled (m : ModelOutcome) (p loc : String) :
    modelStage m p loc ≠ .unhandled := by
  cases m with
  | ok t =>
    show normalizeModelText t loc ≠ _
    unfold normalizeModelText
    split
    · split <;> exact fun hc => HandlerResult.noConfusion hc
    · exact fun hc => HandlerResult.noConfusion hc
  | blocked d => exact fun hc => HandlerResult.noConfusion hc
  | noTextAttr => exact fun hc => HandlerResult.noConfusion hc
  | otherFailure => exact fun hc => HandlerResult.noConfusion hc

def c4Kvs : List (String × PyValue) :=
  [("latitude", .str "45.0"), ("longitude", .num (.finite 7))]

/-- Claim C4 counterexample: this request passes validation (its latitude
is the JSON string "45.0", which `float()` accepts) and the geocoder
returns an empty result list without raising, yet the pipeline does not
continue to the model-call stage: formatting the synthesized default name
raises first, the request dies unhandled, and no external call is made. -/
theorem c4_counterexample :
    validateBody c4Kvs = .ok (.str "45.0", .num (.finite 7))
    ∧ formatFixed6 (PyValue.str "45.0") = none
    ∧ process_location_data true true (.fields c4Kvs) (.results []) (.ok "x")
        = (.unhandled, []) :=
  ⟨rfl, rfl, rfl⟩

/-- Claim C4 as amended: for every validated request whose coordinates are
numeric (or boolean) values, a geocoding failure never aborts the request:
with an empty result list the pipeline continues to the model-call stage
with the synthesized default name, with either exception it continues with
the default name plus the matching marker suffix, and in every case the
response is decided by the model stage alone, never by geocoding. -/
theorem c4_geocoding_failure_never_aborts (kvs : List (String × PyValue))
    (la lo : PyValue) (geo : GeoOutcome) (m : ModelOutcome)
    (hv : validateBody kvs = .ok (la, lo))
    (hna : isNumericValue la = true) (hno : isNumericValue lo = true) :
    ∃ sla slo, formatFixed6 la = some sla ∧ formatFixed6 lo = some slo
    ∧ process_location_data true true (.fields kvs) geo m
        = (modelStage m
            (buildPrompt (resolveLocationName geo (defaultNameOf sla slo)) la lo)
            (resolveLocationName geo (defaultNameOf sla slo)),
           [Call.geocode, Call.modelCall])
    ∧ resolveLocationName (.results []) (defaultNameOf sla slo) = defaultNameOf sla slo
    ∧ resolveLocationName .apiError (defaultNameOf sla slo)
        = defaultNameOf sla slo ++ " (Maps API Error)"
    ∧ resolveLocationName .geoError (defaultNameOf sla slo)
        = defaultNameOf sla slo ++ " (Geocoding Error)" := by
  obtain ⟨sla, hla⟩ := formatFixed6_total_on_numeric la hna
  obtain ⟨slo, hlo⟩ := formatFixed6_total_on_numeric lo hno
  exact ⟨sla, slo, hla, hlo, reach_model kvs la lo sla slo geo m hv hla hlo,
    rfl, rfl, rfl⟩

/-- Witness for the amended C4 at a concrete request with the geocoder
raising an API error. -/
theorem c4_geocoding_failure_never_aborts_witness :
    validateBody w1Kvs = .ok (.num (.finite 1), .num (.finite 2))
    ∧ isNumericValue (PyValue.num (.finite 1)) = true
    ∧ (∃ sla slo,
        formatFixed6 (PyValue.num (PyFloat.finite 1)) = some sla
        ∧ formatFixed6 (PyValue.num (PyFloat.finite 2)) = some slo
        ∧ process_location_data true true (.fields w1Kvs) .apiError (.ok "x")
            = (modelStage (.ok "x")
                (buildPrompt (resolveLocationName .apiError (defaultNameOf sla slo))
                  (.num (.finite 1)) (.num (.finite 2)))
                (resolveLocationName .apiError (defaultNameOf sla slo)),
               [Call.geocode, Call.modelCall])
        ∧ resolveLocationName (.results []) (defaultNameOf sla slo) = defaultNameOf sla slo
        ∧ resolveLocationName .apiError (defaultNameOf sla slo)
            = defaultNameOf sla slo ++ " (Maps API Error)"
        ∧ resolveLocationName .geoError (defaultNameOf sla slo)
            = defaultNameOf sla slo ++ " (Geocoding Error)") :=
  ⟨rfl, rfl,
    c4_geocoding_failure_never_aborts w1Kvs (.num (.finite 1)) (.num (.finite 2))
      .apiError (.ok "x") rfl rfl rfl⟩

def c6Kvs : List (String × PyValue) :=
  [("latitude", .str "-10.5"), ("longitude", .num (.finite 0))]

/-- Claim C6 counterexample: this request passes coordinate validation
(its latitude is the JSON string "-10.5", accepted by `float()`), yet
building the synthesized default name fails: the format step raises on a
string operand, and the handler crashes before building the prompt. -/
theorem c6_counterexample :
    validateBody c6Kvs = .ok (.str "-10.5", .num (.finite 0))
    ∧ formatFixed6 (PyValue.str "-10.5") = none
    ∧ process_location_data true true (.fields c6Kvs) (.results []) (.ok "x")
        = (.unhandled, []) :=
  ⟨rfl, rfl, rfl⟩

/-- Claim C6 as amended: for every validated request whose coordinates are
numeric (or boolean) values, building the synthesized default name and the
prompt succeeds: formatting yields a string for both coordinates, both
pipeline stages are reached, and the handler never ends unhandled. -/
theorem c6_formatting_succeeds_on_numeric (kvs : List (String × PyValue))
    (la lo : PyValue) (geo : GeoOutcome) (m : ModelOutcome)
    (hv : validateBody kvs = .ok (la, lo))
    (hna : isNumericValue la = true) (hno : isNumericValue lo = true) :
    ∃ sla slo, formatFixed6 la = some sla ∧ formatFixed6 lo = some slo
    ∧ (process_location_data true true (.fields kvs) geo m).2
        = [Call.geocode, Call.modelCall]
    ∧ (process_location_data true true (.fields kvs) geo m).1
        ≠ HandlerResult.unhandled := by
  obtain ⟨sla, hla⟩ := formatFixed6_total_on_numeric la hna
  obtain ⟨slo, hlo⟩ := formatFixed6_total_on_numeric lo hno
  refine ⟨sla, slo, hla, hlo, ?_, ?_⟩
  · rw [reach_model kvs la lo sla slo geo m hv hla hlo]
  · rw [reach_model kvs la lo sla slo geo m hv hla hlo]
    exact modelStage_ne_unhandled m
      (buildPrompt (resolveLocationName geo (defaultNameOf sla slo)) la lo)
      (resolveLocationName geo (defaultNameOf sla slo))

/-- Witness for the amended C6 at a concrete numeric request. -/
theorem c6_formatting_succeeds_on_numeric_witness :
    validateBody w1Kvs = .ok (.num (.finite 1), .num (.finite 2))
    ∧ isNumericValue (PyValue.num (.finite 2)) = true
    ∧ (∃ sla slo,
        formatFixed6 (PyValue.num (PyFloat.finite 1)) = some sla
        ∧ formatFixed6 (PyValue.num (PyFloat.finite 2)) = some slo
        ∧ (process_location_data true true (.fields w1Kvs) (.results []) (.ok "x")).2
            = [Call.geocode, Call.modelCall]
        ∧ (process_location_data true true (.fields w1Kvs) (.results []) (.ok "x")).1
            ≠ HandlerResult.unhandled) :=
  ⟨rfl, rfl,
    c6_formatting_succeeds_on_numeric w1Kvs (.num (.finite 1)) (.num (.finite 2))
      (.results []) (.ok "x") rfl rfl rfl⟩

/-! Claims C8 and C9: algebraic properties of the fence-cleanup step. -/

/-- If left-stripping a list is a no-op, it stays a no-op after the right
strip: the right strip only shortens the list from the tail. -/
theorem dropWhile_rdropWhile_stable (m : List Char)
    (hm : List.dropWhile isPySpace m = m) :
    List.dropWhile isPySpace (List.rdropWhile isPySpace m)
      = List.rdropWhile isPySpace m := by
  cases hr : List.rdropWhile isPySpace m with
  | nil => rfl
  | cons b bs =>
    obtain ⟨t, ht⟩ := List.rdropWhile_prefix isPySpace m
    rw [hr] at ht
    have hm' : m = b :: (bs ++ t) := by rw [← ht]; simp
    have hb : isPySpace b = false := by
      cases hx : isPySpace b with
      | false => rfl
      | true =>
        exfalso
        rw [hm', List.dropWhile_cons_of_pos hx] at hm
        have hlen := ((List.dropWhile_suffix (l := bs ++ t) isPySpace).sublist).length_le
        rw [hm] at hlen
        simp at hlen
    rw [List.dropWhile_cons_of_neg (by simp [hb])]

/-- Python stripping is idempotent. -/
theorem pyStrip_idem (l : List Char) : pyStrip (pyStrip l) = pyStrip l := by
  unfold pyStrip
  rw [dropWhile_rdropWhile_stable _ (List.dropWhile_idempotent _ _),
    List.rdropWhile_idempotent]

/-- The cleanup result is already stripped. -/
theorem pyStrip_cleanFences (s : List Char) :
    pyStrip (cleanFences s) = cleanFences s :=
  pyStrip_idem _

theorem pyStrip_cons_space (c : Char) (l : List Char) (hc : isPySpace c = true) :
    pyStrip (c :: l) = pyStrip l := by
  unfold pyStrip
  rw [List.dropWhile_cons_of_pos hc]

theorem pyStrip_append_space (l : List Char) (c : Char) (hc : isPySpace c = true) :
    pyStrip (l ++ [c]) = pyStrip l := by
  unfold pyStrip
  rw [List.dropWhile_append]
  cases he : (List.dropWhile isPySpace l).isEmpty with
  | true =>
    rw [if_pos rfl, List.dropWhile_cons_of_pos hc, List.isEmpty_iff.mp he]
    rfl
  | false =>
    rw [if_neg (by simp)]
    exact List.rdropWhile_concat_pos _ _ _ hc

/-- The markdown wrapping the spec describes: open fence, newline, payload,
newline, close fence. -/
def wrapFences (t : List Char) : List Char :=
  fenceOpen ++ ('\n' :: (t ++ '\n' :: fenceClose))

/-- Cleaning a wrapped payload yields the stripped payload. -/
theorem cleanFences_wrap (t : List Char) :
    cleanFences (wrapFences t) = pyStrip t := by
  have hshape : wrapFences t
      = (fenceOpen ++ ('\n' :: (t ++ ['\n', '`', '`']))) ++ ['`'] := by
    simp [wrapFences, fenceClose]
  have hstrip : pyStrip (wrapFences t) = wrapFences t := by
    have h1 : List.dropWhile isPySpace (wrapFences t) = wrapFences t := rfl
    unfold pyStrip
    rw [h1, hshape, List.rdropWhile_concat_neg _ _ _ (by decide)]
  have hpre : fenceOpen.isPrefixOf (wrapFences t) = true := by
    rw [List.isPrefixOf_iff_prefix]
    exact ⟨'\n' :: (t ++ '\n' :: fenceClose), rfl⟩
  have hdrop : (wrapFences t).drop 7 = '\n' :: (t ++ '\n' :: fenceClose) := rfl
  have hsuf : fenceClose.isSuffixOf ('\n' :: (t ++ '\n' :: fenceClose)) = true := by
    rw [List.isSuffixOf_iff_suffix]
    exact ⟨'\n' :: (t ++ ['\n']), by simp⟩
  have hdrop3 : dropLast3 ('\n' :: (t ++ '\n' :: fenceClose)) = '\n' :: (t ++ ['\n']) := by
    have hsh : ('\n' :: (t ++ '\n' :: fenceClose)) = ('\n' :: (t ++ ['\n'])) ++ fenceClose := by
      simp
    rw [hsh]
    unfold dropLast3
    rw [List.reverse_append]
    show (('\n' :: (t ++ ['\n'])).reverse).reverse = '\n' :: (t ++ ['\n'])
    exact List.reverse_reverse _
  simp only [cleanFences, hstrip, hpre, hdrop, hsuf, hdrop3, if_true]
  rw [pyStrip_cons_space '\n' _ (by decide), pyStrip_append_space _ '\n' (by decide)]

/-- With no fence at either end of the stripped text, cleanup is just the
strip. -/
theorem cleanFences_eq_pyStrip (t : List Char)
    (hp1 : fenceOpen.isPrefixOf (pyStrip t) = false)
    (hp2 : fenceClose.isSuffixOf (pyStrip t) = false) :
    cleanFences t = pyStrip t := by
  simp only [cleanFences, hp1, hp2, Bool.false_eq_true, if_false]
  exact pyStrip_idem t

theorem not_fence_prefix_of_head (l : List Char) (c : Char)
    (hc : l.head? = some c) (hne : c ≠ '`') :
    fenceOpen.isPrefixOf l = false := by
  cases hpp : fenceOpen.isPrefixOf l with
  | false => rfl
  | true =>
    exfalso
    rw [List.isPrefixOf_iff_prefix] at hpp
    obtain ⟨tl, htl⟩ := hpp
    rw [← htl] at hc
    have hh : (fenceOpen ++ tl).head? = some '`' := rfl
    rw [hh] at hc
    exact hne (Option.some.inj hc).symm

theorem not_fence_suffix_of_getLast (l : List Char) (c : Char)
    (hc : l.getLast? = some c) (hne : c ≠ '`') :
    fenceClose.isSuffixOf l = false := by
  cases hss : fenceClose.isSuffixOf l with
  | false => rfl
  | true =>
    exfalso
    rw [List.isSuffixOf_iff_suffix] at hss
    obtain ⟨s0, hs0⟩ := hss
    rw [← hs0] at hc
    have hh : (s0 ++ fenceClose).getLast? = some '`' := by
      have hsh : s0 ++ fenceClose = (s0 ++ ['`', '`']) ++ ['`'] := by simp [fenceClose]
      rw [hsh, List.getLast?_concat]
    rw [hh] at hc
    exact hne (Option.some.inj hc).symm

/-- Claim C8: for every JSON object text (stripped form delimited by
braces), cleaning the markdown-wrapped form strips the fences and yields
exactly the same cleaned text, hence the same parsed object, as cleaning
the unwrapped text. -/
theorem c8_fence_stripping_roundtrip (t : List Char)
    (h1 : (pyStrip t).head? = some '\x7b')
    (h2 : (pyStrip t).getLast? = some '\x7d') :
    cleanFences (wrapFences t) = cleanFences t
    ∧ jsonLoads (cleanFences (wrapFences t)) = jsonLoads (cleanFences t) := by
  have hp1 := not_fence_prefix_of_head (pyStrip t) '\x7b' h1 (by decide)
  have hp2 := not_fence_suffix_of_getLast (pyStrip t) '\x7d' h2 (by decide)
  have key : cleanFences (wrapFences t) = cleanFences t := by
    rw [cleanFences_wrap t, cleanFences_eq_pyStrip t hp1 hp2]
  exact ⟨key, by rw [key]⟩

/-- Witness for C8 on a small JSON object payload. -/
theorem c8_fence_stripping_roundtrip_witness :
    (pyStrip "\x7b\"a\": 1\x7d".data).head? = some '\x7b'
    ∧ (pyStrip "\x7b\"a\": 1\x7d".data).getLast? = some '\x7d'
    ∧ (cleanFences (wrapFences "\x7b\"a\": 1\x7d".data)
          = cleanFences "\x7b\"a\": 1\x7d".data
      ∧ jsonLoads (cleanFences (wrapFences "\x7b\"a\": 1\x7d".data))
          = jsonLoads (cleanFences "\x7b\"a\": 1\x7d".data)) :=
  ⟨rfl, rfl, c8_fence_stripping_roundtrip "\x7b\"a\": 1\x7d".data rfl rfl⟩

/-- Claim C9 counterexample: cleanup is not idempotent in general; on this
input the first pass leaves a fresh open fence that a second pass removes,
so applying the cleanup twice differs from applying it once. -/
theorem c9_counterexample :
    cleanFences (cleanFences "```json```json".data)
      ≠ cleanFences "```json```json".data := by
  decide

/-- Claim C9 as amended: cleanup is idempotent on every string whose
once-cleaned form does not itself start with the open fence or end with
the close fence; in general a second application can strip one more fence
layer. -/
theorem c9_cleanup_idempotent_unless_nested_fence (s : List Char)
    (hp1 : fenceOpen.isPrefixOf (cleanFences s) = false)
    (hp2 : fenceClose.isSuffixOf (cleanFences s) = false) :
    cleanFences (cleanFences s) = cleanFences s := by
  have hst : pyStrip (cleanFences s) = cleanFences s := pyStrip_cleanFences s
  have hp1' : fenceOpen.isPrefixOf (pyStrip (cleanFences s)) = false := by
    rw [hst]; exact hp1
  have hp2' : fenceClose.isSuffixOf (pyStrip (cleanFences s)) = false := by
    rw [hst]; exact hp2
  rw [cleanFences_eq_pyStrip (cleanFences s) hp1' hp2']
  exact hst

/-- Witness for the amended C9 on a plain stripped string. -/
theorem c9_cleanup_idempotent_unless_nested_fence_witness :
    fenceOpen.isPrefixOf (cleanFences " hi ".data) = false
    ∧ fenceClose.isSuffixOf (cleanFences " hi ".data) = false
    ∧ cleanFences (cleanFences " hi ".data) = cleanFences " hi ".data :=
  ⟨rfl, rfl, c9_cleanup_idempotent_unless_nested_fence " hi ".data rfl rfl⟩

end GdgBackend
